import Mathlib

/-!
FarmFlow DCRI core — shallow embedding

Embedding of the DCRI (Dynamic Crop Risk Index) scoring core of
`src/app.py`: the heuristic scorer `simple_dcri_calculation`, the
crop-type map, weather/soil fetch normalisation, the listing handler
`process_crop_listing`, the daily revision loop `update_dcri_daily`,
and the JSON snapshot persistence.

Numeric values are modelled as exact rationals (ℚ); Python's `int()`
truncation, `round()` half-to-even, `abs`, `min`/`max` and `np.clip`
are modelled explicitly.  Fallible steps (a `KeyError` on a missing
dict key) are modelled with `Except`; the outcome of a network fetch
is passed in as an `Option` (`none` = non-200 status or exception,
which the code maps to defaults).
-/

namespace FarmFlow

/-- Python `int()` applied to a float: truncation toward zero. -/
def pyInt (q : ℚ) : ℤ := if q < 0 then -⌊-q⌋ else ⌊q⌋

/-- Python `round()` to an integer: round-half-to-even. -/
def pyRound (q : ℚ) : ℤ :=
  if q - ⌊q⌋ < 1/2 then ⌊q⌋
  else if q - ⌊q⌋ > 1/2 then ⌊q⌋ + 1
  else if (2 : ℤ) ∣ ⌊q⌋ then ⌊q⌋ else ⌊q⌋ + 1

/-- Python `round(x, 1)`: one decimal place, half-to-even. -/
def round1 (q : ℚ) : ℚ := (pyRound (q * 10) : ℚ) / 10

/-- Python `round(x, 2)`: two decimal places, half-to-even. -/
def round2 (q : ℚ) : ℚ := (pyRound (q * 100) : ℚ) / 100

/-- The weather dict produced by `get_weather_data` /
`get_default_weather` (`src/app.py` lines 115-120, 132-139). -/
structure WeatherInfo where
  temperature : ℚ
  humidity : ℚ
  rainfall : ℚ
  wind_speed : ℚ
deriving DecidableEq, Repr

/-- The soil dict produced by `get_soil_data` / `get_default_soil`
(`src/app.py` lines 160-166, 200-208). -/
structure SoilInfo where
  ph : ℚ
  moisture : ℚ
  nitrogen : ℚ
  phosphorus : ℚ
  potassium : ℚ
deriving DecidableEq, Repr

/-- `simple_dcri_calculation` (`src/app.py` lines 300-330): the
heuristic alpha score.  `int()` truncates; `max(0, min(1000, _))`
clamps. -/
def simple_dcri_calculation (disease_percent : ℚ)
    (weather_data : WeatherInfo) (soil_data : SoilInfo) : ℤ :=
  let disease_score := disease_percent * 400
  let temp := weather_data.temperature
  let humidity := weather_data.humidity
  let rainfall := weather_data.rainfall
  let temp_stress := |temp - 25| * 5
  let humidity_stress := |humidity - 60| * 2
  let rainfall_stress := max 0 (rainfall - 30) * 3
  let climate_score := min 300 (temp_stress + humidity_stress + rainfall_stress)
  let ph := soil_data.ph
  let moisture := soil_data.moisture
  let ph_stress := |ph - 6.5| * 50
  let moisture_stress := |moisture - 50| * 3
  let soil_score := min 300 (ph_stress + moisture_stress)
  let alpha_score := pyInt (disease_score + climate_score + soil_score)
  max 0 (min 1000 alpha_score)

/-- `CROP_MAP` (`src/app.py` lines 57-61). -/
def CROP_MAP : List (String × ℕ) :=
  [("Tomato", 0), ("Potato", 1), ("Pepper", 2),
   ("Corn", 3), ("Apple", 4), ("Grape", 5),
   ("Wheat", 6), ("Rice", 7), ("Cotton", 8)]

/-- `CROP_MAP.get(crop_name, 0)` (`src/app.py` line 265). -/
def cropCode (crop_name : String) : ℕ :=
  (CROP_MAP.lookup crop_name).getD 0

/-- `calculate_dcri` (`src/app.py` lines 261-298).  The repository
ships no `dcri_model.pkl` artifact, so `DCRI_MODEL_AVAILABLE` is
false at startup and the function always takes the heuristic branch
(`simple_dcri_calculation`); the crop code lookup still happens
first and never raises. -/
def calculate_dcri (crop_name : String) (disease_percent : ℚ)
    (weather_data : WeatherInfo) (soil_data : SoilInfo) : ℤ :=
  let _crop_type := cropCode crop_name
  simple_dcri_calculation disease_percent weather_data soil_data

/-- `get_default_weather` (`src/app.py` lines 132-139). -/
def get_default_weather : WeatherInfo :=
  { temperature := 25.0, humidity := 60.0, rainfall := 10.0, wind_speed := 12.0 }

/-- The `current` object of a 200 Open-Meteo response; each field may
be absent (`current.get(..., default)` in `src/app.py` lines 116-119). -/
structure WeatherResp where
  temperature_2m : Option ℚ
  relative_humidity_2m : Option ℚ
  precipitation : Option ℚ
  wind_speed_10m : Option ℚ
deriving DecidableEq, Repr

/-- `get_weather_data` (`src/app.py` lines 98-130).  `none` stands for
a non-200 status or a raised exception (both return
`get_default_weather`); on a 200 response each field is taken with
`current.get(key, default)` and rounded to one decimal. -/
def get_weather_data (resp : Option WeatherResp) : WeatherInfo :=
  match resp with
  | none => get_default_weather
  | some current =>
    { temperature := round1 (current.temperature_2m.getD 25.0)
      humidity := round1 (current.relative_humidity_2m.getD 60.0)
      rainfall := round1 (current.precipitation.getD 0.0)
      wind_speed := round1 (current.wind_speed_10m.getD 10.0) }

/-- `get_default_soil` (`src/app.py` lines 200-208). -/
def get_default_soil : SoilInfo :=
  { ph := 6.5, moisture := 50.0, nitrogen := 30.0,
    phosphorus := 25.0, potassium := 35.0 }

/-- `get_soil_data` (`src/app.py` lines 141-198).  `none` stands for a
non-200 status or a raised exception (both return
`get_default_soil`); on a 200 response the parsed-and-jittered soil
dict (pH/nitrogen extracted from layers, moisture/phosphorus/potassium
randomised around 45/25/35) is abstracted as the supplied `SoilInfo`.
Either way the function is total: a fetch failure never raises. -/
def get_soil_data (resp : Option SoilInfo) : SoilInfo :=
  match resp with
  | none => get_default_soil
  | some s => s

/-- `np.clip(old + u, 0, 1)` with `u = np.random.uniform(-0.05, 0.05)`
(`src/app.py` line 445): one day's disease-fraction advance, with the
random draw `u` passed in explicitly. -/
def advance_disease (old_disease_pct u : ℚ) : ℚ :=
  min 1 (max 0 (old_disease_pct + u))

/-- A Python exception relevant to the modelled code: a `KeyError`
raised by a direct dict subscript such as `data['latitude']`. -/
inductive PyErr where
  | keyError (key : String)
deriving DecidableEq, Repr

/-- One value of the `crop_dcri_data` store: the dict written at
`src/app.py` lines 388-394.  Fields read back with `.get` defaults
(`crop_name`, `last_disease_pct`) or direct subscripts (`latitude`,
`longitude`) are `Option`s so that a malformed record (a key deleted
or never written) is representable; `last_update` is an ISO timestamp
string. -/
structure StoredRecord where
  crop_name : Option String
  latitude : Option ℚ
  longitude : Option ℚ
  last_disease_pct : Option ℚ
  last_update : String
deriving DecidableEq, Repr

/-- The store: Python dict `crop_dcri_data`, keyed by `str(crop_id)`. -/
abbrev Store := List (String × StoredRecord)

/-- One element of the `updates` list built at
`src/app.py` lines 450-454. -/
structure UpdateEntry where
  cropId : String
  alphaScore : ℤ
  timestamp : String
deriving DecidableEq, Repr

/-- The ambient world of one daily revision pass: the outcome of the
weather and soil fetches per coordinate, the per-record uniform draw
`np.random.uniform(-0.05, 0.05)`, and the current wall-clock
timestamp. -/
structure Env where
  wfetch : ℚ → ℚ → Option WeatherResp
  sfetch : ℚ → ℚ → Option SoilInfo
  draw : String → ℚ
  now : String

/-- The body of the `for crop_id, data in crop_dcri_data.items()` loop
of `update_dcri_daily` (`src/app.py` lines 432-457): read the record
(`data['latitude']` / `data['longitude']` raise `KeyError` when
absent; `crop_name` and `last_disease_pct` fall back to `'Tomato'` /
`0.3`), fetch fresh weather and soil, advance the disease fraction,
recompute alpha, and produce the update entry plus the mutated
record. -/
def processRecord (env : Env) (crop_id : String) (data : StoredRecord) :
    Except PyErr (UpdateEntry × StoredRecord) :=
  let crop_name := data.crop_name.getD "Tomato"
  match data.latitude with
  | none => .error (.keyError "latitude")
  | some lat =>
    match data.longitude with
    | none => .error (.keyError "longitude")
    | some lon =>
      let weather_data := get_weather_data (env.wfetch lat lon)
      let soil_data := get_soil_data (env.sfetch lat lon)
      let old_disease_pct := data.last_disease_pct.getD 0.3
      let disease_pct := advance_disease old_disease_pct (env.draw crop_id)
      let alpha_score := calculate_dcri crop_name disease_pct weather_data soil_data
      .ok (⟨crop_id, alpha_score, env.now⟩,
           { data with last_disease_pct := some disease_pct, last_update := env.now })

/-- The whole `for` loop: sequential processing, aborted by the first
exception (the loop body has no `try` of its own, so a raise
propagates to the handler wrapping the whole request). -/
def runUpdates (env : Env) : Store → Except PyErr (List UpdateEntry × Store)
  | [] => .ok ([], [])
  | (crop_id, data) :: rest =>
    match processRecord env crop_id data with
    | .error e => .error e
    | .ok (upd, data') =>
      match runUpdates env rest with
      | .error e => .error e
      | .ok (upds, rest') => .ok (upd :: upds, (crop_id, data') :: rest')

/-- `update_dcri_daily` (`src/app.py` lines 422-470).  On success the
full update list is returned, the store holds the mutated records,
and the snapshot file is rewritten (the `Bool` is `true` exactly when
`json.dump` ran).  Any exception inside the loop is caught only by
the outer handler (line 468): the request answers with an error, no
updates are returned and the snapshot file is not written.  (The
in-memory mutation of records processed before a failure is not
observable through the response or the file and is not modelled.) -/
def update_dcri_daily (env : Env) (store : Store) :
    Except PyErr (List UpdateEntry × Store × Bool) :=
  match runUpdates env store with
  | .error e => .error e
  | .ok (upds, store') => .ok (upds, store', true)

/-- A JSON-decoded Python value, as found in the request body's
`cropId` field. -/
inductive PyVal where
  | none_
  | num (q : ℚ)
  | str (s : String)
  | bool (b : Bool)
deriving DecidableEq, Repr

/-- Python truthiness, as tested by `if crop_id:`
(`src/app.py` line 387). -/
def truthy : PyVal → Bool
  | .none_ => false
  | .num q => q != 0
  | .str s => s != ""
  | .bool b => b

/-- Python `str()` of the `cropId` value, used as the store key
(`src/app.py` line 388). -/
def pyStr : PyVal → String
  | .none_ => "None"
  | .num q => toString q
  | .str s => s
  | .bool b => if b then "True" else "False"

/-- Python dict assignment `crop_dcri_data[k] = r`: overwrite the
existing entry for `k` or append a new one. -/
def upsert (store : Store) (k : String) (r : StoredRecord) : Store :=
  match store with
  | [] => [(k, r)]
  | (k', r') :: rest =>
    if k' = k then (k', r) :: rest else (k', r') :: upsert rest k r

/-- The response body of a successful listing request
(`src/app.py` lines 407-414), without the IPFS hash (external to
the core). -/
structure ListingResult where
  diseasePercentage : ℚ
  alphaScore : ℤ
  weatherData : WeatherInfo
  soilData : SoilInfo
deriving DecidableEq, Repr

/-- `process_crop_listing` (`src/app.py` lines 344-420), after image
decoding and IPFS upload (external I/O): `cropId` defaults to `0` and
`cropName` to `'Tomato'` when absent; weather and soil are fetched;
alpha is computed; then, only when `crop_id` is truthy, the record is
upserted under key `str(crop_id)` and the snapshot file rewritten.
Returns (response, store after the request, whether the snapshot file
was written). -/
def process_crop_listing (store : Store) (cropId : Option PyVal)
    (cropName : Option String) (disease_pct : ℚ) (lat lon : ℚ)
    (wresp : Option WeatherResp) (sresp : Option SoilInfo) (now : String) :
    ListingResult × Store × Bool :=
  let crop_id := cropId.getD (.num 0)
  let crop_name := cropName.getD "Tomato"
  let weather_data := get_weather_data wresp
  let soil_data := get_soil_data sresp
  let alpha_score := calculate_dcri crop_name disease_pct weather_data soil_data
  let result : ListingResult := ⟨disease_pct, alpha_score, weather_data, soil_data⟩
  if truthy crop_id then
    (result,
     upsert store (pyStr crop_id)
       ⟨some crop_name, some lat, some lon, some disease_pct, now⟩,
     true)
  else
    (result, store, false)

/-- A JSON value, as serialized by `json.dump` and parsed back by
`json.load` for the `crop_dcri_data.json` snapshot. -/
inductive JValue where
  | jstr (s : String)
  | jnum (q : ℚ)
  | jobj (fields : List (String × JValue))
deriving Repr

/-- Serialize one optional dict entry: an absent key produces no
JSON member. -/
def encodeField (key : String) : Option JValue → List (String × JValue)
  | none => []
  | some v => [(key, v)]

/-- Serialize one store record as `json.dump` serializes the Python
dict of `src/app.py` lines 388-394. -/
def encodeRecord (r : StoredRecord) : JValue :=
  .jobj (encodeField "crop_name" (r.crop_name.map .jstr) ++
         encodeField "latitude" (r.latitude.map .jnum) ++
         encodeField "longitude" (r.longitude.map .jnum) ++
         encodeField "last_disease_pct" (r.last_disease_pct.map .jnum) ++
         [("last_update", .jstr r.last_update)])

/-- Read a JSON member as a string, when present with that shape. -/
def asStr : Option JValue → Option String
  | some (.jstr s) => some s
  | _ => none

/-- Read a JSON member as a number, when present with that shape. -/
def asNum : Option JValue → Option ℚ
  | some (.jnum q) => some q
  | _ => none

/-- Parse one store record back from its JSON object. -/
def decodeRecord : JValue → Option StoredRecord
  | .jobj fields =>
    match asStr (fields.lookup "last_update") with
    | none => none
    | some lu =>
      some ⟨asStr (fields.lookup "crop_name"),
            asNum (fields.lookup "latitude"),
            asNum (fields.lookup "longitude"),
            asNum (fields.lookup "last_disease_pct"),
            lu⟩
  | _ => none

/-- Serialize the whole store: a single JSON object keyed by crop
identifier (`json.dump(crop_dcri_data, f)`). -/
def encodeStore (store : Store) : JValue :=
  .jobj (store.map fun e => (e.1, encodeRecord e.2))

/-- Parse the members of the top-level JSON object back into store
entries. -/
def decodeEntries : List (String × JValue) → Option Store
  | [] => some []
  | (k, v) :: rest =>
    match decodeRecord v with
    | none => none
    | some r => (decodeEntries rest).map (fun tail => (k, r) :: tail)

/-- Parse the whole snapshot back (`json.load(f)` at
`src/app.py` lines 490-491). -/
def decodeStore : JValue → Option Store
  | .jobj fields => decodeEntries fields
  | _ => some []

/-- One filesystem-visible step of the save at `src/app.py`
lines 396-398 and 459-461: `open('crop_dcri_data.json', 'w')`
truncates the file at once, then `json.dump` appends the serialized
text in pieces. -/
inductive SaveStep where
  | truncate
  | write (piece : String)
deriving DecidableEq, Repr

/-- The step sequence of one save of serialized pieces `chunks`. -/
def saveScript (chunks : List String) : List SaveStep :=
  .truncate :: chunks.map .write

/-- Effect of one step on the durable file content. -/
def applyStep (file : String) : SaveStep → String
  | .truncate => ""
  | .write piece => file ++ piece

/-- Durable file content after the first `k` steps of a save of
`chunks` over previous content `old`: a failure after `k` steps
leaves exactly this on disk. -/
def runSave (old : String) (chunks : List String) (k : ℕ) : String :=
  ((saveScript chunks).take k).foldl applyStep old

/-- Modelled from the spec's words, for comparison with the code
(claim C1): the alpha formula with `round` (Python's half-to-even
rounding) in place of the code's `int()` truncation. -/
def specAlphaRounded (disease_fraction : ℚ)
    (w : WeatherInfo) (s : SoilInfo) : ℤ :=
  max 0 (min 1000 (pyRound (disease_fraction * 400 +
    min 300 (|w.temperature - 25| * 5 + |w.humidity - 60| * 2 +
      max 0 (w.rainfall - 30) * 3) +
    min 300 (|s.ph - 6.5| * 50 + |s.moisture - 50| * 3))))

end FarmFlow

namespace FarmFlow

/-! ## Helper lemmas -/

lemma simple_dcri_def (d : ℚ) (w : WeatherInfo) (s : SoilInfo) :
    simple_dcri_calculation d w s =
      max 0 (min 1000 (pyInt (d * 400 +
        min 300 (|w.temperature - 25| * 5 + |w.humidity - 60| * 2 +
          max 0 (w.rainfall - 30) * 3) +
        min 300 (|s.ph - 6.5| * 50 + |s.moisture - 50| * 3)))) := rfl

lemma pyInt_of_nonneg {q : ℚ} (h : 0 ≤ q) : pyInt q = ⌊q⌋ := by
  unfold pyInt
  rw [if_neg (not_lt.mpr h)]

lemma pyInt_mono_of_nonneg {a b : ℚ} (ha : 0 ≤ a) (hab : a ≤ b) :
    pyInt a ≤ pyInt b := by
  rw [pyInt_of_nonneg ha, pyInt_of_nonneg (ha.trans hab)]
  exact Int.floor_le_floor hab

lemma clamp_mono {a b : ℤ} (h : a ≤ b) :
    max 0 (min 1000 a) ≤ max 0 (min 1000 b) :=
  max_le_max le_rfl (min_le_min le_rfl h)

lemma climate_term_nonneg (w : WeatherInfo) :
    0 ≤ min (300 : ℚ) (|w.temperature - 25| * 5 + |w.humidity - 60| * 2 +
      max 0 (w.rainfall - 30) * 3) :=
  le_min (by norm_num) (by positivity)

lemma soil_term_nonneg (s : SoilInfo) :
    0 ≤ min (300 : ℚ) (|s.ph - 6.5| * 50 + |s.moisture - 50| * 3) :=
  le_min (by norm_num) (by positivity)

/-! ## Claim C1 -/

/-- C1 counterexample: at disease fraction `0.002` and
comfort-band weather and soil, the component sum is `0.8`; the code's
`int()` truncates it to `0` while the claimed `round` would give `1`,
so the scorer does not round before clamping. -/
theorem C1_round_claim_counterexample :
    simple_dcri_calculation (1/500) get_default_weather get_default_soil = 0 ∧
    specAlphaRounded (1/500) get_default_weather get_default_soil = 1 ∧
    simple_dcri_calculation (1/500) get_default_weather get_default_soil ≠
      specAlphaRounded (1/500) get_default_weather get_default_soil := by
  refine ⟨?_, ?_, ?_⟩ <;>
    norm_num [simple_dcri_calculation, specAlphaRounded, get_default_weather,
      get_default_soil, pyInt, pyRound]

/-- C1 (amended): for every disease fraction and weather and soil
snapshot, the heuristic scorer returns
`clamp(trunc(disease*400 + min(300, climate) + min(300, soil)), 0, 1000)`
where `trunc` is Python `int()` truncation toward zero — not
rounding. -/
theorem C1_alpha_formula_with_truncation (d : ℚ) (w : WeatherInfo) (s : SoilInfo) :
    simple_dcri_calculation d w s =
      max 0 (min 1000 (pyInt (d * 400 +
        min 300 (|w.temperature - 25| * 5 + |w.humidity - 60| * 2 +
          max 0 (w.rainfall - 30) * 3) +
        min 300 (|s.ph - 6.5| * 50 + |s.moisture - 50| * 3)))) :=
  simple_dcri_def d w s

/-! ## Claim C3 -/

/-- C3: for every input the heuristic score is an integer in
`[0, 1000]`; the boundary input (disease 1, temperature 100,
humidity 0, rainfall 1000, pH 0, moisture 100) clamps to exactly
`1000`; and inputs exactly at every comfort band (25 °C, 60 %
humidity, low rainfall, pH 6.5, 50 % moisture) leave the score to the
disease component alone, fed through the same truncate-and-clamp
stage. -/
theorem C3_score_bounded_and_boundary :
    (∀ (d : ℚ) (w : WeatherInfo) (s : SoilInfo),
      0 ≤ simple_dcri_calculation d w s ∧ simple_dcri_calculation d w s ≤ 1000) ∧
    simple_dcri_calculation 1 ⟨100, 0, 1000, 12⟩ ⟨0, 100, 30, 25, 35⟩ = 1000 ∧
    (∀ d : ℚ, simple_dcri_calculation d get_default_weather get_default_soil =
      max 0 (min 1000 (pyInt (d * 400)))) := by
  refine ⟨fun d w s => ⟨le_max_left _ _, ?_⟩, ?_, fun d => ?_⟩
  · rw [simple_dcri_def]
    exact max_le (by norm_num) (min_le_left _ _)
  · norm_num [simple_dcri_calculation, pyInt, abs_of_nonneg]
  · rw [simple_dcri_def]
    norm_num [get_default_weather, get_default_soil]

/-! ## Claim C4 -/

/-- C4: for disease fractions `d1 ≤ d2` in `[0, 1]` and fixed weather
and soil, the heuristic score at `d1` is at most the score at `d2`:
the scorer is monotonically non-decreasing in the disease
fraction. -/
theorem C4_monotone_in_disease_fraction (d1 d2 : ℚ) (w : WeatherInfo) (s : SoilInfo)
    (h0 : 0 ≤ d1) (h12 : d1 ≤ d2) (_h2 : d2 ≤ 1) :
    simple_dcri_calculation d1 w s ≤ simple_dcri_calculation d2 w s := by
  have hc := climate_term_nonneg w
  have hs := soil_term_nonneg s
  rw [simple_dcri_def, simple_dcri_def]
  exact clamp_mono (pyInt_mono_of_nonneg (by nlinarith) (by nlinarith))

/-- C4 witness: the monotonicity theorem applied at the concrete pair
`d1 = 0`, `d2 = 1` with default weather and soil. -/
theorem C4_monotone_witness :
    (0 : ℚ) ≤ 0 ∧ (0 : ℚ) ≤ 1 ∧ (1 : ℚ) ≤ 1 ∧
    simple_dcri_calculation 0 get_default_weather get_default_soil ≤
      simple_dcri_calculation 1 get_default_weather get_default_soil :=
  ⟨le_refl 0, by norm_num, le_refl 1,
    C4_monotone_in_disease_fraction 0 1 get_default_weather get_default_soil
      (le_refl 0) (by norm_num) (le_refl 1)⟩

/-! ## Claim C5 -/

lemma advance_disease_props {old u : ℚ} (h0 : 0 ≤ old) (h1 : old ≤ 1)
    (hu : |u| ≤ 1/20) :
    0 ≤ advance_disease old u ∧ advance_disease old u ≤ 1 ∧
    |advance_disease old u - old| ≤ 1/20 := by
  obtain ⟨hul, huu⟩ := abs_le.mp hu
  unfold advance_disease
  refine ⟨le_min (by norm_num) (le_max_left 0 _), min_le_left _ _, abs_le.mpr ⟨?_, ?_⟩⟩
  · have hlow : old - 1/20 ≤ min 1 (max 0 (old + u)) :=
      le_min (by linarith) (le_trans (by linarith) (le_max_right 0 (old + u)))
    linarith
  · rcases le_total (old + u) 0 with hneg | hpos
    · rw [max_eq_left hneg]
      have hmin : min (1 : ℚ) 0 = 0 := by norm_num
      rw [hmin]
      linarith
    · rw [max_eq_right hpos]
      have hmin : min (1 : ℚ) (old + u) ≤ old + u := min_le_right _ _
      linarith

/-- C5: whenever one record is processed by a daily revision pass,
with its old disease fraction in `[0, 1]` and the uniform draw `u` in
`[-0.05, 0.05]`, the record's new disease fraction is exactly
`clip(old + u, 0, 1)`; hence it stays in `[0, 1]` and moves by at
most `0.05`. -/
theorem C5_daily_step_bounded (env : Env) (crop_id : String)
    (data : StoredRecord) (upd : UpdateEntry) (data' : StoredRecord)
    (hok : processRecord env crop_id data = .ok (upd, data'))
    (h0 : 0 ≤ data.last_disease_pct.getD 0.3)
    (h1 : data.last_disease_pct.getD 0.3 ≤ 1)
    (hu : |env.draw crop_id| ≤ 1/20) :
    data'.last_disease_pct =
      some (advance_disease (data.last_disease_pct.getD 0.3) (env.draw crop_id)) ∧
    0 ≤ advance_disease (data.last_disease_pct.getD 0.3) (env.draw crop_id) ∧
    advance_disease (data.last_disease_pct.getD 0.3) (env.draw crop_id) ≤ 1 ∧
    |advance_disease (data.last_disease_pct.getD 0.3) (env.draw crop_id) -
      data.last_disease_pct.getD 0.3| ≤ 1/20 := by
  have props := advance_disease_props h0 h1 hu
  refine ⟨?_, props.1, props.2.1, props.2.2⟩
  unfold processRecord at hok
  cases hlat : data.latitude with
  | none =>
    rw [hlat] at hok
    exact absurd hok (by simp)
  | some lat =>
    cases hlon : data.longitude with
    | none =>
      rw [hlat, hlon] at hok
      exact absurd hok (by simp)
    | some lon =>
      rw [hlat, hlon] at hok
      simp only [Except.ok.injEq, Prod.mk.injEq] at hok
      obtain ⟨-, hd⟩ := hok
      rw [← hd]

/-- Fixed world for the concrete runs: both fetches fail over to
defaults, the uniform draw is `+0.05`, and the clock reads a fixed
timestamp. -/
def env0 : Env :=
  { wfetch := fun _ _ => none, sfetch := fun _ _ => none,
    draw := fun _ => 1/20, now := "2026-01-02T00:00:00" }

/-- A well-formed store record at disease fraction `0.30`. -/
def rec0 : StoredRecord :=
  ⟨some "Tomato", some 0, some 0, some (3/10), "2026-01-01T00:00:00"⟩

/-- A malformed store record: its `latitude` key is missing, so
`data['latitude']` raises `KeyError`. -/
def badRec : StoredRecord :=
  ⟨some "Tomato", none, some 0, some (3/10), "2026-01-01T00:00:00"⟩

/-- The update entry produced for `rec0` under `env0`. -/
def upd0 : UpdateEntry :=
  ⟨"c1", calculate_dcri "Tomato" (advance_disease ((3 : ℚ)/10) ((1 : ℚ)/20))
    (get_weather_data none) (get_soil_data none), env0.now⟩

/-- The mutated record produced for `rec0` under `env0`. -/
def rec0' : StoredRecord :=
  { rec0 with
    last_disease_pct := some (advance_disease ((3 : ℚ)/10) ((1 : ℚ)/20)),
    last_update := env0.now }

/-- C5 witness: the bounded-step theorem applied to the concrete
record `rec0` (disease `0.30`) with draw `+0.05`. -/
theorem C5_daily_step_bounded_witness :
    rec0'.last_disease_pct =
      some (advance_disease (rec0.last_disease_pct.getD 0.3) (env0.draw "c1")) ∧
    0 ≤ advance_disease (rec0.last_disease_pct.getD 0.3) (env0.draw "c1") ∧
    advance_disease (rec0.last_disease_pct.getD 0.3) (env0.draw "c1") ≤ 1 ∧
    |advance_disease (rec0.last_disease_pct.getD 0.3) (env0.draw "c1") -
      rec0.last_disease_pct.getD 0.3| ≤ 1/20 :=
  C5_daily_step_bounded env0 "c1" rec0 upd0 rec0' rfl
    (by norm_num [rec0]) (by norm_num [rec0]) (by norm_num [env0, abs_of_nonneg])

/-! ## Claim C2 -/

lemma runUpdates_append_error (env : Env) (post : Store) (crop_id : String)
    (data : StoredRecord) (e : PyErr)
    (he : processRecord env crop_id data = .error e) :
    ∀ pre : Store, ∃ e', runUpdates env (pre ++ (crop_id, data) :: post) = .error e'
  | [] => ⟨e, by simp [runUpdates, he]⟩
  | (k, r) :: pre' => by
    obtain ⟨e', he'⟩ := runUpdates_append_error env post crop_id data e he pre'
    cases hpr : processRecord env k r with
    | error e2 => exact ⟨e2, by simp [runUpdates, hpr]⟩
    | ok out =>
      obtain ⟨upd, data'⟩ := out
      exact ⟨e', by simp [runUpdates, hpr, he']⟩

/-- C2 counterexample: in a two-record store whose first record is
malformed (missing `latitude`), the daily run raises, answers with an
error and persists nothing — even though the second record on its own
would process fine.  One record's failure aborts the whole batch. -/
theorem C2_batch_abort_counterexample :
    update_dcri_daily env0 [("1", badRec), ("2", rec0)] =
      .error (.keyError "latitude") ∧
    (∃ out, processRecord env0 "2" rec0 = .ok out) :=
  ⟨rfl, ⟨_, rfl⟩⟩

/-- C2 (amended): the loop body of the daily revision has no handler
of its own, so if any single record's processing raises, the whole
run returns an error: no update entries are returned and the store is
not persisted.  (Weather and soil fetch failures do not raise — they
fall back to defaults — so only a malformed record aborts the
batch.) -/
theorem C2_record_error_aborts_batch (env : Env) (pre post : Store)
    (crop_id : String) (data : StoredRecord) (e : PyErr)
    (he : processRecord env crop_id data = .error e) :
    ∃ e', update_dcri_daily env (pre ++ (crop_id, data) :: post) = .error e' := by
  obtain ⟨e', he'⟩ := runUpdates_append_error env post crop_id data e he pre
  exact ⟨e', by simp [update_dcri_daily, he']⟩

/-- C2 witness: the abort theorem applied to the concrete two-record
store headed by the malformed record. -/
theorem C2_record_error_aborts_batch_witness :
    ∃ e', update_dcri_daily env0 ([] ++ ("1", badRec) :: [("2", rec0)]) =
      .error e' :=
  C2_record_error_aborts_batch env0 [] [("2", rec0)] "1" badRec
    (.keyError "latitude") rfl

/-! ## Claim C6 -/

/-- A 200 Open-Meteo response whose `current` object carries none of
the four expected fields. -/
def emptyResp : WeatherResp := ⟨none, none, none, none⟩

/-- C6 counterexample: a successful weather response with all fields
missing yields `(25, 60, 0, 10)` — the per-field defaults of the
success branch — not the claimed full defaults `(25, 60, 10, 12)`:
rainfall defaults to `0.0` and wind speed to `10.0` there. -/
theorem C6_missing_field_defaults_counterexample :
    get_weather_data (some emptyResp) = ⟨25, 60, 0, 10⟩ ∧
    (⟨25, 60, 0, 10⟩ : WeatherInfo) ≠ get_default_weather := by
  constructor
  · simp only [get_weather_data, emptyResp, Option.getD_none]
    norm_num [round1, pyRound, WeatherInfo.mk.injEq]
  · norm_num [get_default_weather, WeatherInfo.mk.injEq]

/-- C6 (amended): a failed weather fetch (non-200 or exception)
returns the full defaults `(25, 60, 10, 12)`; within a successful
response, each individually missing field is substituted per-field by
`temperature = 25.0`, `humidity = 60.0`, `rainfall = 0.0`,
`wind_speed = 10.0`; every field is always populated. -/
theorem C6_weather_defaults_per_field (current : WeatherResp) :
    get_weather_data none = get_default_weather ∧
    (current.temperature_2m = none →
      (get_weather_data (some current)).temperature = 25) ∧
    (current.relative_humidity_2m = none →
      (get_weather_data (some current)).humidity = 60) ∧
    (current.precipitation = none →
      (get_weather_data (some current)).rainfall = 0) ∧
    (current.wind_speed_10m = none →
      (get_weather_data (some current)).wind_speed = 10) := by
  refine ⟨rfl, fun h => ?_, fun h => ?_, fun h => ?_, fun h => ?_⟩ <;>
    norm_num [get_weather_data, h, round1, pyRound]

/-- C6 witness: the per-field default theorem applied to the concrete
all-fields-missing response. -/
theorem C6_weather_defaults_witness :
    get_weather_data none = get_default_weather ∧
    (get_weather_data (some emptyResp)).temperature = 25 ∧
    (get_weather_data (some emptyResp)).humidity = 60 ∧
    (get_weather_data (some emptyResp)).rainfall = 0 ∧
    (get_weather_data (some emptyResp)).wind_speed = 10 :=
  ⟨(C6_weather_defaults_per_field emptyResp).1,
   (C6_weather_defaults_per_field emptyResp).2.1 rfl,
   (C6_weather_defaults_per_field emptyResp).2.2.1 rfl,
   (C6_weather_defaults_per_field emptyResp).2.2.2.1 rfl,
   (C6_weather_defaults_per_field emptyResp).2.2.2.2 rfl⟩

/-! ## Claim C7 -/

/-- Concatenation of the serialized pieces written so far. -/
def concatPieces : List String → String
  | [] => ""
  | s :: rest => s ++ concatPieces rest

lemma saveWrites_foldl : ∀ (l : List String) (k : ℕ) (acc : String),
    ((l.map SaveStep.write).take k).foldl applyStep acc =
      acc ++ concatPieces (l.take k)
  | [], k, acc => by simp [concatPieces, String.append_empty]
  | _ :: _, 0, acc => by simp [concatPieces, String.append_empty]
  | s :: rest, k + 1, acc => by
    simp only [List.map_cons, List.take_succ_cons, List.foldl_cons, applyStep]
    rw [saveWrites_foldl rest k (acc ++ s), concatPieces, String.append_assoc]

/-- C7 counterexample: saving serialized content `"NEW"` over a
previous snapshot `"OLD"`, a failure after the first step (the
truncating `open`) leaves an empty file: neither the old snapshot
intact nor the new one complete.  The write is not atomic. -/
theorem C7_atomic_save_counterexample :
    runSave "OLD" ["NEW"] 1 = "" ∧
    runSave "OLD" ["NEW"] 2 = "NEW" ∧
    ("" : String) ≠ "OLD" ∧ ("" : String) ≠ "NEW" := by
  refine ⟨rfl, rfl, by decide, by decide⟩

/-- C7 (amended): the save opens the snapshot file in truncate mode
(`'w'`) and then writes the serialization sequentially, so after the
open has happened, a failure at any point leaves on disk exactly the
prefix of the new serialization written so far — independent of the
previously saved snapshot, which is destroyed. -/
theorem C7_truncating_save_leaves_prefix (old : String) (chunks : List String)
    (k : ℕ) :
    runSave old chunks (k + 1) = concatPieces (chunks.take k) := by
  unfold runSave saveScript
  simp only [List.take_succ_cons, List.foldl_cons, applyStep]
  rw [saveWrites_foldl]
  exact String.empty_append _

/-! ## Claim C8 -/

lemma decodeRecord_encodeRecord (r : StoredRecord) :
    decodeRecord (encodeRecord r) = some r := by
  obtain ⟨cn, lat, lon, pct, lu⟩ := r
  cases cn <;> cases lat <;> cases lon <;> cases pct <;> rfl

/-- C8: serializing any store to the snapshot JSON and parsing it back
reproduces the store exactly — the same crop identifiers in the same
order, and for each one the same `crop_name`, `latitude`,
`longitude`, `last_disease_pct` and `last_update` string. -/
theorem C8_snapshot_roundtrip (store : Store) :
    decodeStore (encodeStore store) = some store := by
  induction store with
  | nil => rfl
  | cons e rest ih =>
    obtain ⟨k, r⟩ := e
    simp only [encodeStore, List.map_cons, decodeStore, decodeEntries,
      decodeRecord_encodeRecord]
    simp only [encodeStore, decodeStore] at ih
    rw [ih]
    rfl

/-! ## Claim C9 -/

/-- C9: every crop name outside the closed nine-name enumeration maps
to crop code `0` (Tomato) and the scorer still computes a result —
the same result as for `"Tomato"` — without any error path. -/
theorem C9_unknown_crop_silent_fallback (crop_name : String)
    (h : crop_name ∉ ["Tomato", "Potato", "Pepper", "Corn", "Apple",
      "Grape", "Wheat", "Rice", "Cotton"]) :
    cropCode crop_name = 0 ∧
    ∀ (d : ℚ) (w : WeatherInfo) (s : SoilInfo),
      calculate_dcri crop_name d w s = calculate_dcri "Tomato" d w s := by
  refine ⟨?_, fun d w s => rfl⟩
  simp only [List.mem_cons, List.not_mem_nil, or_false, not_or] at h
  obtain ⟨h1, h2, h3, h4, h5, h6, h7, h8, h9⟩ := h
  have e1 : (crop_name == "Tomato") = false := beq_eq_false_iff_ne.mpr h1
  have e2 : (crop_name == "Potato") = false := beq_eq_false_iff_ne.mpr h2
  have e3 : (crop_name == "Pepper") = false := beq_eq_false_iff_ne.mpr h3
  have e4 : (crop_name == "Corn") = false := beq_eq_false_iff_ne.mpr h4
  have e5 : (crop_name == "Apple") = false := beq_eq_false_iff_ne.mpr h5
  have e6 : (crop_name == "Grape") = false := beq_eq_false_iff_ne.mpr h6
  have e7 : (crop_name == "Wheat") = false := beq_eq_false_iff_ne.mpr h7
  have e8 : (crop_name == "Rice") = false := beq_eq_false_iff_ne.mpr h8
  have e9 : (crop_name == "Cotton") = false := beq_eq_false_iff_ne.mpr h9
  simp [cropCode, CROP_MAP, List.lookup, e1, e2, e3, e4, e5, e6, e7, e8, e9]

/-- C9 witness: the fallback theorem applied to the concrete unknown
name `"Unknown"` and one concrete scoring input. -/
theorem C9_unknown_crop_witness :
    cropCode "Unknown" = 0 ∧
    calculate_dcri "Unknown" (1/5) get_default_weather get_default_soil =
      calculate_dcri "Tomato" (1/5) get_default_weather get_default_soil :=
  ⟨(C9_unknown_crop_silent_fallback "Unknown" (by decide)).1,
   (C9_unknown_crop_silent_fallback "Unknown" (by decide)).2
     (1/5) get_default_weather get_default_soil⟩

/-! ## Claim C10 -/

/-- C10: a listing submission whose `cropId` is absent or falsy
(`0`, `""`, `null`, `false`) still computes and returns the alpha
score together with the weather and soil snapshots used, but leaves
the store untouched and does not write the snapshot file. -/
theorem C10_falsy_cropId_no_store_write (store : Store) (cropId : Option PyVal)
    (cropName : Option String) (d lat lon : ℚ) (wresp : Option WeatherResp)
    (sresp : Option SoilInfo) (now : String)
    (h : truthy (cropId.getD (.num 0)) = false) :
    (process_crop_listing store cropId cropName d lat lon wresp sresp now).2.1 =
      store ∧
    (process_crop_listing store cropId cropName d lat lon wresp sresp now).2.2 =
      false ∧
    (process_crop_listing store cropId cropName d lat lon wresp sresp now).1 =
      ⟨d, calculate_dcri (cropName.getD "Tomato") d (get_weather_data wresp)
        (get_soil_data sresp), get_weather_data wresp, get_soil_data sresp⟩ := by
  refine ⟨?_, ?_, ?_⟩ <;> simp [process_crop_listing, h]

/-- C10 witness: the frame theorem applied to a concrete one-record
store with the explicit falsy `cropId` value `0`. -/
theorem C10_falsy_cropId_witness :
    truthy ((some (PyVal.num 0)).getD (.num 0)) = false ∧
    (process_crop_listing [("1", rec0)] (some (.num 0)) none (1/5) 0 0
      none none "t").2.1 = [("1", rec0)] ∧
    (process_crop_listing [("1", rec0)] (some (.num 0)) none (1/5) 0 0
      none none "t").2.2 = false ∧
    (process_crop_listing [("1", rec0)] (some (.num 0)) none (1/5) 0 0
      none none "t").1 =
      ⟨1/5, calculate_dcri ((none : Option String).getD "Tomato") (1/5)
        (get_weather_data none) (get_soil_data none),
        get_weather_data none, get_soil_data none⟩ := by
  have h : truthy ((some (PyVal.num 0)).getD (.num 0)) = false := by
    simp [truthy]
  exact ⟨h, (C10_falsy_cropId_no_store_write [("1", rec0)] (some (.num 0))
    none (1/5) 0 0 none none "t" h).1,
    (C10_falsy_cropId_no_store_write [("1", rec0)] (some (.num 0))
    none (1/5) 0 0 none none "t" h).2.1,
    (C10_falsy_cropId_no_store_write [("1", rec0)] (some (.num 0))
    none (1/5) 0 0 none none "t" h).2.2⟩

end FarmFlow
